import Mathlib

/-!
Shallow embedding of the elitecar-api repository (TypeScript/Express/PostgreSQL).

The repository is a CRUD REST API over three resources (clients, cars, sales
orders).  The embedding models:

* JavaScript runtime values that flow through `req.body` and `req.params`
  (`JSVal`, `JSNum`), together with the pieces of JavaScript semantics the
  handlers rely on (`parseIntJS` for `parseInt`, `jsNumber` for `Number(...)`,
  `jsNewDate` for `new Date(...)`, first-occurrence `String.replace`);
* the database state (`DB`) as lists of rows with SERIAL counters, and the
  SQL statements issued by the model layer as pure functions on that state;
* the model classes `Carro`, `Cliente`, `PedidoVenda`
  (src/model/Carro.ts, src/model/Cliente.ts, src/model/PedidoVenda.ts);
  every method carries an `err : Bool` argument representing "the database
  driver raised on this call"; the `catch` branch of the source is the
  `err = true` case;
* the request handlers of `CarroController`, `ClienteController` and
  `PedidoVendaController` (src/controller/CarroController.ts,
  src/controller/ClienteController.ts).

Floating point numbers are modelled by `JSNum` (rationals plus NaN and the
infinities); hexadecimal `Number` literals and the full generality of the
JavaScript `Date` parser are outside what any handler input in the claims
exercises and are modelled by the documented subsets below.
-/

/-- JavaScript numbers: NaN, the two infinities, or a finite value
(modelled as a rational). -/
inductive JSNum where
  | nan : JSNum
  | inf (neg : Bool) : JSNum
  | fin (q : ℚ) : JSNum
deriving DecidableEq, Repr

/-- JavaScript values that appear in `req.body` fields and inside the
order DTO after normalization (the handlers write `Date` objects and
numbers back into the DTO). -/
inductive JSVal where
  | undef : JSVal
  | null : JSVal
  | bool (b : Bool) : JSVal
  | num (n : JSNum) : JSVal
  | str (s : String) : JSVal
  /-- a `Date` object; `none` is an Invalid Date (`getTime()` is NaN),
  `some t` carries the abstract time value. -/
  | date (t : Option Int) : JSVal
deriving DecidableEq, Repr

/-- Whitespace characters recognised by JavaScript `trim` / `parseInt` /
`Number` (the ASCII ones; the handlers only ever receive ASCII input). -/
def jsWhite (c : Char) : Bool :=
  c = ' ' || c = '\t' || c = '\n' || c = '\r' || c = '\x0b' || c = '\x0c'

/-- `String.prototype.trim`. -/
def jsTrim (s : String) : String :=
  String.mk (((s.toList.dropWhile jsWhite).reverse.dropWhile jsWhite).reverse)

/-- Longest run of decimal digits at the head of a character list. -/
def leadingDigits : List Char → List Char
  | [] => []
  | c :: cs => if c.isDigit then c :: leadingDigits cs else []

/-- Numeric value of a list of decimal digits. -/
def digitsVal (ds : List Char) : Nat :=
  ds.foldl (fun a c => 10 * a + (c.toNat - 48)) 0

/-- Hexadecimal digit test used by the hex branch of no-radix `parseInt`. -/
def isHexDigitJS (c : Char) : Bool :=
  c.isDigit || ('a' ≤ c && c ≤ 'f') || ('A' ≤ c && c ≤ 'F')

/-- Value of one hexadecimal digit. -/
def hexDigitVal (c : Char) : Nat :=
  if c.isDigit then c.toNat - 48
  else if 'a' ≤ c && c ≤ 'f' then c.toNat - 87
  else c.toNat - 55

/-- Numeric value of a list of hexadecimal digits. -/
def hexVal (hs : List Char) : Nat :=
  hs.foldl (fun a c => 16 * a + hexDigitVal c) 0

/-- Whether the (sign-stripped) input starts with the `0x`/`0X` marker
that switches no-radix `parseInt` to hexadecimal. -/
def hexStart : List Char → Bool
  | b0 :: b1 :: _ => b0 = '0' && (b1 = 'x' || b1 = 'X')
  | _ => false

/-- Unsigned part of no-radix `parseInt`: behind a `0x`/`0X` marker the
longest prefix of hexadecimal digits (NaN when there is none), otherwise
the longest prefix of decimal digits (NaN when there is none). -/
def parseIntBody (body : List Char) : Option Nat :=
  if hexStart body then
    let hs := (body.drop 2).takeWhile isHexDigitJS
    if hs.isEmpty then none else some (hexVal hs)
  else
    let ds := leadingDigits body
    if ds.isEmpty then none else some (digitsVal ds)

/-- JavaScript `parseInt(s)` with no radix argument, as the handlers call
it: skip leading whitespace, read an optional sign, then a `0x`/`0X`
marker selects hexadecimal and otherwise the longest decimal-digit prefix
is read; `none` models the NaN result.  The model keeps exact integers,
whereas the real `parseInt` returns a double, exact only below `2 ^ 53`;
the theorem about digit-prefixed parameters therefore carries that bound. -/
def parseIntJS (s : String) : Option Int :=
  let cs := s.toList.dropWhile jsWhite
  match cs with
  | [] => none
  | c :: t =>
    match parseIntBody (if c = '-' || c = '+' then t else c :: t) with
    | none => none
    | some n => some (if c = '-' then -(n : Int) else (n : Int))

/-- All characters are decimal digits and there is at least one. -/
def allDigits (cs : List Char) : Bool :=
  !cs.isEmpty && cs.all Char.isDigit

/-- Mantissa of a decimal literal: `digits`, `digits.digits`, `.digits`
or `digits.` (at least one digit overall). -/
def parseMantissa (cs : List Char) : Option ℚ :=
  let ipart := cs.takeWhile Char.isDigit
  let rest := cs.dropWhile Char.isDigit
  match rest with
  | [] => if ipart.isEmpty then none else some (digitsVal ipart : ℚ)
  | '.' :: frac =>
    if frac.all Char.isDigit && !(ipart.isEmpty && frac.isEmpty) then
      some ((digitsVal ipart : ℚ) + (digitsVal frac : ℚ) / (10 : ℚ) ^ frac.length)
    else none
  | _ => none

/-- Exponent part of a decimal literal: optional sign then digits. -/
def parseExponent (cs : List Char) : Option Int :=
  match cs with
  | '-' :: t => if allDigits t then some (-(digitsVal t : Int)) else none
  | '+' :: t => if allDigits t then some (digitsVal t : Int) else none
  | _ => if allDigits cs then some (digitsVal cs : Int) else none

/-- Multiply by a signed power of ten (kept explicit so it computes). -/
def applyExpTen (q : ℚ) (e : Int) : ℚ :=
  if 0 ≤ e then q * (10 : ℚ) ^ e.toNat else q / (10 : ℚ) ^ (-e).toNat

/-- Split a character list at the first `e`/`E`, returning the mantissa
part and, when present, the exponent part. -/
def splitAtE : List Char → List Char × Option (List Char)
  | [] => ([], none)
  | c :: cs =>
    if c = 'e' || c = 'E' then ([], some cs)
    else
      let r := splitAtE cs
      (c :: r.1, r.2)

/-- Unsigned part of `Number(...)`: `Infinity` or a decimal literal with
optional exponent. -/
def jsNumberUnsigned (cs : List Char) : Option JSNum :=
  if cs = "Infinity".toList then some (JSNum.inf false)
  else
    let p := splitAtE cs
    match parseMantissa p.1 with
    | none => none
    | some m =>
      match p.2 with
      | none => some (JSNum.fin m)
      | some ecs =>
        match parseExponent ecs with
        | none => none
        | some e => some (JSNum.fin (applyExpTen m e))

/-- JavaScript `Number(s)` for string input: trim, empty gives `0`, then an
optionally signed `Infinity` or decimal literal; everything else is NaN.
(Hexadecimal/octal/binary literals are not modelled; no handler input in the
claims is one.) -/
def jsNumber (s : String) : JSNum :=
  let cs := (jsTrim s).toList
  match cs with
  | [] => JSNum.fin 0
  | '-' :: t =>
    match jsNumberUnsigned t with
    | some (JSNum.inf _) => JSNum.inf true
    | some (JSNum.fin q) => JSNum.fin (-q)
    | _ => JSNum.nan
  | '+' :: t => (jsNumberUnsigned t).getD JSNum.nan
  | _ => (jsNumberUnsigned cs).getD JSNum.nan

/-- Replace the first occurrence of character `a` by `b`
(JavaScript `String.prototype.replace` with a string pattern replaces only
the first occurrence). -/
def replaceFirstChar : List Char → Char → Char → List Char
  | [], _, _ => []
  | c :: cs, a, b => if c = a then b :: cs else c :: replaceFirstChar cs a b

/-- `s.replace(",", ".")` on strings, via the character-level helper. -/
def replaceComma (s : String) : String :=
  String.mk (replaceFirstChar s.toList ',' '.')

/-- Number of days of a month, with the Gregorian leap-year rule (used by
the `Date` validity check). -/
def daysInMonth (y m : Nat) : Nat :=
  if m = 2 then
    if y % 4 = 0 && (y % 100 ≠ 0 || y % 400 = 0) then 29 else 28
  else if m = 4 || m = 6 || m = 9 || m = 11 then 30
  else 31

/-- Parse a `YYYY-MM-DD` date string, producing an abstract time value
that is injective on valid calendar dates.  JavaScript `new Date(s)` accepts
further formats; the handlers and the database seed data only use this one,
and every other string is modelled as Invalid Date. -/
def parseDateISO (s : String) : Option Int :=
  match s.toList with
  | [y1, y2, y3, y4, '-', m1, m2, '-', d1, d2] =>
    if [y1, y2, y3, y4, m1, m2, d1, d2].all Char.isDigit then
      let y := digitsVal [y1, y2, y3, y4]
      let m := digitsVal [m1, m2]
      let d := digitsVal [d1, d2]
      if 1 ≤ m && m ≤ 12 && 1 ≤ d && d ≤ daysInMonth y m then
        some ((y : Int) * 10000 + (m : Int) * 100 + (d : Int))
      else none
    else none
  | _ => none

/-- `new Date(x)` followed by the `isNaN(date.getTime())` test:
`none` is an Invalid Date.  A `Date` argument is copied, a finite number is
taken as a time value, a string goes through the parser above. -/
def jsNewDate : JSVal → Option Int
  | JSVal.date t => t
  | JSVal.num (JSNum.fin q) => some ⌊q⌋
  | JSVal.num _ => none
  | JSVal.str s => parseDateISO s
  | JSVal.bool b => some (if b then 1 else 0)
  | JSVal.null => some 0
  | JSVal.undef => none

/-! ## Database state

Row types mirror the tables created in the SQL setup script
(`clientes`, `carros`, `pedidos_venda`); `situacao` is the active flag used
by the soft-delete queries.  SERIAL id generation is modelled by the
`next*` counters.  The `cpf UNIQUE` constraint is not modelled — no claim
depends on it.  `DECIMAL(10,2)` rounding of `valor_pedido` is likewise not
modelled. -/

structure CarroRow where
  id_carro : Int
  marca : String
  modelo : String
  ano : Int
  cor : String
deriving DecidableEq, Repr

structure ClienteRow where
  id_cliente : Int
  nome : String
  cpf : String
  telefone : String
  situacao : Bool
deriving DecidableEq, Repr

structure PedidoRow where
  id_pedido : Int
  id_cliente : Int
  id_carro : Int
  data_pedido : Int
  valor_pedido : ℚ
  situacao : Bool
deriving DecidableEq, Repr

structure DB where
  carros : List CarroRow
  clientes : List ClienteRow
  pedidos : List PedidoRow
  nextCarro : Int
  nextCliente : Int
  nextPedido : Int
deriving DecidableEq, Repr

/-! ## Entities built by the model layer -/

/-- The `Carro` entity built by `listarCarros`/`listarCarro`
(constructor arguments plus `setIdCarro`). -/
structure CarroEnt where
  idCarro : Int
  marca : String
  modelo : String
  ano : Int
  cor : String
deriving DecidableEq, Repr

/-- The `Cliente` entity built by `listarClientes`/`listarCliente`; the
constructor leaves `situacao` at its field initializer `true`, and the
listing methods never call `setSituacao`. -/
structure ClienteEnt where
  idCliente : Int
  nome : String
  cpf : String
  telefone : String
  situacao : Bool := true
deriving DecidableEq, Repr

/-- The `PedidoVendaDTO` built by `listarPedidosVenda`/`listarPedidoVenda`
from a row of the three-table join (it also serves as the join-row type:
the DTO copies the row fieldwise). -/
structure PedidoOut where
  idPedido : Int
  idCliente : Int
  nomeCliente : String
  idCarro : Int
  marcaCarro : String
  modeloCarro : String
  dataPedido : Int
  valorPedido : ℚ
  situacao : Bool
deriving DecidableEq, Repr

/-! ## Input DTOs -/

/-- `CarroDTO` (src/interfaces): all four payload fields are strings;
`cadastrarCarro` applies `parseInt` to `ano` itself. -/
structure CarroDTO where
  marca : String
  modelo : String
  ano : String
  cor : String
deriving DecidableEq, Repr

/-- `ClienteDTO` as used by `ClienteController.atualizar`:
the body fields plus the id copied from the route parameter. -/
structure ClienteDTO where
  idCliente : Int := 0
  nome : String
  cpf : String
  telefone : String
deriving DecidableEq, Repr

/-- `PedidoVendaDTO` as read from `req.body`: the four payload fields are
arbitrary JavaScript values (the controller validates and normalizes them
in place), `idPedido` is set from the route parameter by the update
handler. -/
structure PedidoVendaDTO where
  idPedido : Option Int := none
  idCliente : JSVal
  idCarro : JSVal
  dataPedido : JSVal
  valorPedido : JSVal
deriving DecidableEq, Repr

/-! ## SQL statement semantics

Each function models one of the parameterized statements issued by the
model layer, as a pure function of the database state. -/

/-- `SELECT * FROM carros;` -/
def sqlSelectCarros (db : DB) : List CarroRow := db.carros

/-- `SELECT * FROM carros WHERE id_carro=$1;` -/
def sqlSelectCarro (db : DB) (id : Int) : List CarroRow :=
  db.carros.filter (fun r => r.id_carro == id)

/-- `SELECT * FROM clientes WHERE situacao=TRUE;` -/
def sqlSelectClientes (db : DB) : List ClienteRow :=
  db.clientes.filter (fun r => r.situacao)

/-- `SELECT * FROM clientes WHERE id_cliente=$1;` (no `situacao` filter). -/
def sqlSelectCliente (db : DB) (id : Int) : List ClienteRow :=
  db.clientes.filter (fun r => r.id_cliente == id)

/-- Join rows produced for one `pedidos_venda` row by
`JOIN clientes ... JOIN carros ...` (nested-loop semantics). -/
def joinPedido (db : DB) (p : PedidoRow) : List PedidoOut :=
  (db.clientes.filter (fun c => c.id_cliente == p.id_cliente)).flatMap (fun c =>
    (db.carros.filter (fun a => a.id_carro == p.id_carro)).map (fun a =>
      { idPedido := p.id_pedido
        idCliente := p.id_cliente
        nomeCliente := c.nome
        idCarro := p.id_carro
        marcaCarro := a.marca
        modeloCarro := a.modelo
        dataPedido := p.data_pedido
        valorPedido := p.valor_pedido
        situacao := p.situacao }))

/-- The join of `listarPedidosVenda`, with its `WHERE pv.situacao = TRUE`. -/
def sqlSelectPedidos (db : DB) : List PedidoOut :=
  (db.pedidos.filter (fun p => p.situacao)).flatMap (joinPedido db)

/-- The join of `listarPedidoVenda`, with its `WHERE pv.id_pedido = $1`
(no `situacao` filter). -/
def sqlSelectPedido (db : DB) (id : Int) : List PedidoOut :=
  (db.pedidos.filter (fun p => p.id_pedido == id)).flatMap (joinPedido db)

/-! ## Model layer

One function per static method of the model classes.  The `err` argument
models the database driver raising on the call; the source wraps every
call in `try/catch` and the `catch` branch returns `null` / `false`
without re-throwing, which is the `err = true` equation of each
definition. -/

/-- Entity built from a `carros` row inside the `forEach` of the listing
methods (`new Carro(...)` plus `setIdCarro`). -/
def carroEntOfRow (r : CarroRow) : CarroEnt :=
  { idCarro := r.id_carro, marca := r.marca, modelo := r.modelo
    ano := r.ano, cor := r.cor }

/-- Entity built from a `clientes` row (`new Cliente(...)` plus
`setIdCliente`; `situacao` keeps its initializer `true`). -/
def clienteEntOfRow (r : ClienteRow) : ClienteEnt :=
  { idCliente := r.id_cliente, nome := r.nome, cpf := r.cpf
    telefone := r.telefone }

/-- The `forEach` of a get-by-id method: starts from `null` and overwrites
the accumulator with each row, so the last row wins. -/
def lastRowAcc {α β : Type} (build : α → β) (rows : List α) : Option β :=
  rows.foldl (fun _ r => some (build r)) none

namespace Carro

/-- `Carro.listarCarros` (src/model/Carro.ts). -/
def listarCarros (db : DB) (err : Bool) : Option (List CarroEnt) :=
  if err then none
  else some ((sqlSelectCarros db).map carroEntOfRow)

/-- `Carro.listarCarro` (src/model/Carro.ts): runs the by-id SELECT and
folds the rows through the accumulator variable `carro`. -/
def listarCarro (db : DB) (err : Bool) (idCarro : Int) : Option CarroEnt :=
  if err then none
  else lastRowAcc carroEntOfRow (sqlSelectCarro db idCarro)

/-- `Carro.cadastrarCarro` (src/model/Carro.ts): upper-cases `marca`,
`modelo`, `cor`, applies `parseInt` to the string field `ano`, and inserts.
A non-parseable `ano` makes the INSERT parameter NaN, which the driver
rejects — that raise is the `none` branch.  The `RETURNING id_carro` row is
always present on a successful insert, so the method returns `true`. -/
def cadastrarCarro (db : DB) (err : Bool) (carro : CarroDTO) : DB × Bool :=
  if err then (db, false)
  else
    match parseIntJS carro.ano with
    | none => (db, false)
    | some ano =>
      let row : CarroRow :=
        { id_carro := db.nextCarro
          marca := carro.marca.toUpper
          modelo := carro.modelo.toUpper
          ano := ano
          cor := carro.cor.toUpper }
      ({ db with carros := db.carros ++ [row], nextCarro := db.nextCarro + 1 },
       true)

end Carro

namespace Cliente

/-- `Cliente.listarClientes` (src/model/Cliente.ts):
`SELECT * FROM clientes WHERE situacao=TRUE`. -/
def listarClientes (db : DB) (err : Bool) : Option (List ClienteEnt) :=
  if err then none
  else some ((sqlSelectClientes db).map clienteEntOfRow)

/-- `Cliente.listarCliente` (src/model/Cliente.ts): by-id SELECT without a
`situacao` filter, last row wins. -/
def listarCliente (db : DB) (err : Bool) (idCliente : Int) : Option ClienteEnt :=
  if err then none
  else lastRowAcc clienteEntOfRow (sqlSelectCliente db idCliente)

/-- `Cliente.cadastrarCliente` (src/model/Cliente.ts): upper-cases `nome`,
keeps `cpf` and `telefone` as given, inserts (the `situacao` column takes
its default `TRUE`), and reports success from the `RETURNING` row. -/
def cadastrarCliente (db : DB) (err : Bool) (cliente : ClienteDTO) : DB × Bool :=
  if err then (db, false)
  else
    let row : ClienteRow :=
      { id_cliente := db.nextCliente
        nome := cliente.nome.toUpper
        cpf := cliente.cpf
        telefone := cliente.telefone
        situacao := true }
    ({ db with clientes := db.clientes ++ [row], nextCliente := db.nextCliente + 1 },
     true)

/-- `Cliente.atualizarCliente` (src/model/Cliente.ts):
`UPDATE clientes SET nome=$1, cpf=$2, telefone=$3 WHERE id_cliente=$4`,
success iff `rowCount != 0`. -/
def atualizarCliente (db : DB) (err : Bool) (cliente : ClienteDTO) : DB × Bool :=
  if err then (db, false)
  else
    let db' := { db with clientes := db.clientes.map (fun r =>
      if r.id_cliente == cliente.idCliente then
        { r with nome := cliente.nome.toUpper, cpf := cliente.cpf
                 telefone := cliente.telefone }
      else r) }
    (db', db.clientes.countP (fun r => r.id_cliente == cliente.idCliente) != 0)

/-- `Cliente.removerCliente` (src/model/Cliente.ts):
`UPDATE clientes SET situacao=false WHERE id_cliente=$1`,
success iff `rowCount != 0`. -/
def removerCliente (db : DB) (err : Bool) (idCliente : Int) : DB × Bool :=
  if err then (db, false)
  else
    let db' := { db with clientes := db.clientes.map (fun r =>
      if r.id_cliente == idCliente then { r with situacao := false } else r) }
    (db', db.clientes.countP (fun r => r.id_cliente == idCliente) != 0)

end Cliente

/-- Conversion the pg driver applies to a JavaScript value bound to an
`INT` column parameter: an integral number or an integer-shaped string is
accepted, anything else makes the statement raise. -/
def pgIntParam : JSVal → Option Int
  | JSVal.num (JSNum.fin q) => if q.den = 1 then some q.num else none
  | JSVal.str s =>
    match (jsTrim s).toList with
    | '-' :: t => if allDigits t then some (-(digitsVal t : Int)) else none
    | cs => if allDigits cs then some (digitsVal cs : Int) else none
  | _ => none

/-- Conversion for a `DECIMAL` column parameter: a finite number or a
decimal-shaped string; NaN, the infinities and other values make the
statement raise. -/
def pgNumericParam : JSVal → Option ℚ
  | JSVal.num (JSNum.fin q) => some q
  | JSVal.str s =>
    match (jsTrim s).toList with
    | '-' :: t => (parseMantissa t).map Neg.neg
    | cs => parseMantissa cs
  | _ => none

namespace PedidoVenda

/-- `PedidoVenda.listarPedidosVenda` (src/model/PedidoVenda.ts): the
active-only three-table join, each row copied fieldwise into a DTO. -/
def listarPedidosVenda (db : DB) (err : Bool) : Option (List PedidoOut) :=
  if err then none
  else some (sqlSelectPedidos db)

/-- `PedidoVenda.listarPedidoVenda` (src/model/PedidoVenda.ts): the by-id
join (no `situacao` filter), last row wins through the accumulator
variable `pedidoVenda`. -/
def listarPedidoVenda (db : DB) (err : Bool) (idPedido : Int) : Option PedidoOut :=
  if err then none
  else lastRowAcc id (sqlSelectPedido db idPedido)

/-- `PedidoVenda.cadastrarPedido` (src/model/PedidoVenda.ts).

The INSERT statement lists the columns as
`(id_cliente, id_carro, data_pedido, valor_pedido)` but the parameter
array is `[pedido.idCarro, pedido.idCliente, new Date(pedido.dataPedido),
pedido.valorPedido]`: the value bound to the `id_cliente` column is the
payload's `idCarro` and the value bound to `id_carro` is the payload's
`idCliente`.  The foreign-key constraints of `pedidos_venda` are checked
against that swapped binding; an FK violation, an Invalid Date or an
unconvertible parameter raises and is caught (`false`). -/
def cadastrarPedido (db : DB) (err : Bool) (pedido : PedidoVendaDTO) : DB × Bool :=
  if err then (db, false)
  else
    match pgIntParam pedido.idCarro, pgIntParam pedido.idCliente,
          jsNewDate pedido.dataPedido, pgNumericParam pedido.valorPedido with
    | some p1, some p2, some d, some v =>
      if (db.clientes.any (fun c => c.id_cliente == p1))
          && (db.carros.any (fun a => a.id_carro == p2)) then
        let row : PedidoRow :=
          { id_pedido := db.nextPedido
            id_cliente := p1
            id_carro := p2
            data_pedido := d
            valor_pedido := v
            situacao := true }
        ({ db with pedidos := db.pedidos ++ [row], nextPedido := db.nextPedido + 1 },
         true)
      else (db, false)
    | _, _, _, _ => (db, false)

/-- `PedidoVenda.atualizarPedido` (src/model/PedidoVenda.ts).

The UPDATE statement text is
`UPDATE pedidos_venda SET id_carro=$1, id_cliente=$2, data_pedido=$3,
valor_pedido$4 WHERE id_pedido=$5;` — note `valor_pedido$4` with the `=`
missing.  The statement is a SQL syntax error, so every call raises at
`database.query` and the `catch` returns `false` with the database
untouched. -/
def atualizarPedido (db : DB) (_err : Bool) (_pedido : PedidoVendaDTO) : DB × Bool :=
  (db, false)

/-- `PedidoVenda.removerPedido` (src/model/PedidoVenda.ts):
`UPDATE pedidos_venda SET situacao=false WHERE id_pedido=$1`,
success iff `rowCount != 0`. -/
def removerPedido (db : DB) (err : Bool) (idPedido : Int) : DB × Bool :=
  if err then (db, false)
  else
    let db' := { db with pedidos := db.pedidos.map (fun p =>
      if p.id_pedido == idPedido then { p with situacao := false } else p) }
    (db', db.pedidos.countP (fun p => p.id_pedido == idPedido) != 0)

end PedidoVenda

/-! ## Order validation (PedidoVendaController.novo / .atualizar) -/

/-- The required fields of an order request
(`camposObrigatorios = ["idCliente", "idCarro", "dataPedido", "valorPedido"]`). -/
inductive Campo where
  | idCliente : Campo
  | idCarro : Campo
  | dataPedido : Campo
  | valorPedido : Campo
deriving DecidableEq, Repr

def Campo.name : Campo → String
  | Campo.idCliente => "idCliente"
  | Campo.idCarro => "idCarro"
  | Campo.dataPedido => "dataPedido"
  | Campo.valorPedido => "valorPedido"

def camposObrigatorios : List Campo :=
  [Campo.idCliente, Campo.idCarro, Campo.dataPedido, Campo.valorPedido]

/-- Select a required field from the DTO. -/
def campoDe (dto : PedidoVendaDTO) : Campo → JSVal
  | Campo.idCliente => dto.idCliente
  | Campo.idCarro => dto.idCarro
  | Campo.dataPedido => dto.dataPedido
  | Campo.valorPedido => dto.valorPedido

/-- The missing/blank test of the validators:
`valor === undefined || valor === null || valor.toString().trim() === ""`.
The `toString` of a number, boolean or `Date` is never a whitespace-only
string, so only string values can fail the trim test. -/
def isBlankVal : JSVal → Bool
  | JSVal.undef => true
  | JSVal.null => true
  | JSVal.str s => jsTrim s == ""
  | _ => false

/-- String coercion used by the value normalizer for non-number inputs
(`String(valorRaw)`).  A finite number would print as its decimal
representation, but the number case never reaches this coercion (it takes
the `typeof valorRaw === "number"` branch), so the placeholder rendering of
`fin` is unreachable in the handlers. -/
def jsValToString : JSVal → String
  | JSVal.undef => "undefined"
  | JSVal.null => "null"
  | JSVal.bool b => if b then "true" else "false"
  | JSVal.str s => s
  | JSVal.num JSNum.nan => "NaN"
  | JSVal.num (JSNum.inf neg) => if neg then "-Infinity" else "Infinity"
  | JSVal.num (JSNum.fin q) => toString q.num
  | JSVal.date _ => "[Date]"

/-- The order-value normalizer:
`typeof valorRaw === "number" ? valorRaw
 : Number(String(valorRaw).replace(",", "."))`. -/
def normalizeValor : JSVal → JSNum
  | JSVal.num n => n
  | v => jsNumber (replaceComma (jsValToString v))

/-- Acceptance test on the normalized value: the source flags the field
when `!isFinite(valorNum) || isNaN(valorNum) || valorNum <= 0`, so the
value is accepted exactly when it is finite, not NaN and positive. -/
def valorAceito : JSNum → Bool
  | JSNum.fin q => decide (0 < q)
  | _ => false

/-- `if (!camposInvalidos.includes(campo)) camposInvalidos.push(campo)`. -/
def pushUnlessMem (l : List Campo) (c : Campo) : List Campo :=
  if c ∈ l then l else l ++ [c]

/-- The shared validation block of `PedidoVendaController.novo` and
`PedidoVendaController.atualizar`: the required-field filter, then the
date check (normalizing a valid date into the DTO), then the value check
(normalizing an accepted value into the DTO).  Returns the
`camposInvalidos` list and the possibly-normalized DTO. -/
def validarPedido (dto : PedidoVendaDTO) : List Campo × PedidoVendaDTO :=
  let campos0 := camposObrigatorios.filter (fun c => isBlankVal (campoDe dto c))
  let step1 : List Campo × PedidoVendaDTO :=
    if isBlankVal dto.dataPedido then (campos0, dto)
    else
      match jsNewDate dto.dataPedido with
      | none => (pushUnlessMem campos0 Campo.dataPedido, dto)
      | some d => (campos0, { dto with dataPedido := JSVal.date (some d) })
  let campos1 := step1.1
  let dto1 := step1.2
  if isBlankVal dto1.valorPedido then (campos1, dto1)
  else
    let valorNum := normalizeValor dto1.valorPedido
    if valorAceito valorNum then
      (campos1, { dto1 with valorPedido := JSVal.num valorNum })
    else (pushUnlessMem campos1 Campo.valorPedido, dto1)

/-- Specification-level reading of "field is offending": missing or blank,
or (for the date) non-parseable, or (for the value) not accepted after
normalization. -/
def campoInvalido (dto : PedidoVendaDTO) : Campo → Bool
  | Campo.idCliente => isBlankVal dto.idCliente
  | Campo.idCarro => isBlankVal dto.idCarro
  | Campo.dataPedido =>
    isBlankVal dto.dataPedido || (jsNewDate dto.dataPedido).isNone
  | Campo.valorPedido =>
    isBlankVal dto.valorPedido || !valorAceito (normalizeValor dto.valorPedido)

/-! ## HTTP responses and controllers -/

/-- JSON responses produced by the handlers: a status code together with
the body shape the source builds. -/
inductive Resp where
  | msg (status : Nat) (mensagem : String) : Resp
  | camposInv (status : Nat) (mensagem : String) (campos : List Campo) : Resp
  | carroJson (status : Nat) (c : CarroEnt) : Resp
  | carrosJson (status : Nat) (cs : List CarroEnt) : Resp
  | clienteJson (status : Nat) (c : ClienteEnt) : Resp
  | clientesJson (status : Nat) (cs : List ClienteEnt) : Resp
  | pedidoJson (status : Nat) (p : PedidoOut) : Resp
  | pedidosJson (status : Nat) (ps : List PedidoOut) : Resp
deriving DecidableEq, Repr

def Resp.status : Resp → Nat
  | Resp.msg st _ => st
  | Resp.camposInv st _ _ => st
  | Resp.carroJson st _ => st
  | Resp.carrosJson st _ => st
  | Resp.clienteJson st _ => st
  | Resp.clientesJson st _ => st
  | Resp.pedidoJson st _ => st
  | Resp.pedidosJson st _ => st

/-- The id test shared by all handlers:
`isNaN(id) || id <= 0` after `parseInt` of the route parameter. -/
def idInvalido (s : String) : Bool :=
  match parseIntJS s with
  | none => true
  | some id => decide (id ≤ 0)

namespace CarroController

/-- `CarroController.carro` (GET /api/carros/:idCarro). -/
def carro (idParam : String) (db : DB) : Resp :=
  match parseIntJS idParam with
  | none => Resp.msg 400 "ID incorreto"
  | some idCarro =>
    if idCarro ≤ 0 then Resp.msg 400 "ID incorreto"
    else
      match Carro.listarCarro db false idCarro with
      | none => Resp.msg 200 "Nenhum carro encontrado com o ID fornecido"
      | some c => Resp.carroJson 200 c

/-- `CarroController.atualizar` (PUT /api/carros/:idCarro).  After the id
check it calls `Carro.atualizarCarro(carro)`, but no such method exists on
the `Carro` model: the call is a TypeError, the `catch` branch runs, and
the handler answers 500. -/
def atualizar (idParam : String) (_body : CarroDTO) (db : DB) : DB × Resp :=
  match parseIntJS idParam with
  | none => (db, Resp.msg 400 "ID incorreto")
  | some idCarro =>
    if idCarro ≤ 0 then (db, Resp.msg 400 "ID incorreto")
    else (db, Resp.msg 500 "Não foi possível atualizar o carro.")

/-- `CarroController.remover` (PUT /api/remover/carros/:idCarro).  After
the id check it calls `Carro.removerCarro(idCarro)`, which likewise does
not exist on the `Carro` model, so the `catch` branch answers 500. -/
def remover (idParam : String) (db : DB) : DB × Resp :=
  match parseIntJS idParam with
  | none => (db, Resp.msg 400 "ID incorreto")
  | some idCarro =>
    if idCarro ≤ 0 then (db, Resp.msg 400 "ID incorreto")
    else (db, Resp.msg 500 "Não foi possível remover o carro.")

end CarroController

namespace ClienteController

/-- `ClienteController.cliente` (GET /api/clientes/:idCliente). -/
def cliente (idParam : String) (db : DB) : Resp :=
  match parseIntJS idParam with
  | none => Resp.msg 400 "ID incorreto."
  | some idCliente =>
    if idCliente ≤ 0 then Resp.msg 400 "ID incorreto."
    else
      match Cliente.listarCliente db false idCliente with
      | none => Resp.msg 200 "Nenhum cliente encontrado com o ID fornecido."
      | some c => Resp.clienteJson 200 c

/-- `ClienteController.atualizar` (PUT /api/clientes/:idCliente). -/
def atualizar (idParam : String) (body : ClienteDTO) (db : DB) : DB × Resp :=
  match parseIntJS idParam with
  | none => (db, Resp.msg 400 "ID incorreto.")
  | some idCliente =>
    if idCliente ≤ 0 then (db, Resp.msg 400 "ID incorreto.")
    else
      let r := Cliente.atualizarCliente db false { body with idCliente := idCliente }
      if r.2 then
        (r.1, Resp.msg 200
          ("Cliente " ++ toString idCliente ++ " atualizado com sucesso."))
      else
        (r.1, Resp.msg 400
          "Não foi possível atualizar cliente, verifique se as informações foram passadas corretamente.")

/-- `ClienteController.remover` (PUT /api/remover/clientes/:idCliente). -/
def remover (idParam : String) (db : DB) : DB × Resp :=
  match parseIntJS idParam with
  | none => (db, Resp.msg 400 "ID incorreto.")
  | some idCliente =>
    if idCliente ≤ 0 then (db, Resp.msg 400 "ID incorreto.")
    else
      let r := Cliente.removerCliente db false idCliente
      if r.2 then (r.1, Resp.msg 200 "Cliente removido com sucesso.")
      else
        (r.1, Resp.msg 400
          "Não foi possível remover o cliente, verifique se as informações foram passadas corretamente.")

end ClienteController

namespace PedidoVendaController

/-- The 400 body of the order validators:
`{mensagem: "Campos inválidos ou ausentes: ...", campos: camposInvalidos}`. -/
def respCampos (campos : List Campo) : Resp :=
  Resp.camposInv 400
    ("Campos inválidos ou ausentes: "
      ++ String.intercalate ", " (campos.map Campo.name) ++ ".")
    campos

/-- `PedidoVendaController.novo` (POST for orders): validate, reject with
the offending-field list before any database call, otherwise insert via
`cadastrarPedido`. -/
def novo (body : PedidoVendaDTO) (db : DB) : DB × Resp :=
  let v := validarPedido body
  if !v.1.isEmpty then (db, respCampos v.1)
  else
    let r := PedidoVenda.cadastrarPedido db false v.2
    if r.2 then (r.1, Resp.msg 201 "Pedido cadastrado com sucesso.")
    else (r.1, Resp.msg 400 "Erro ao cadastrar pedido.")

/-- `PedidoVendaController.atualizar` (PUT for orders): id check, same
validation as `novo`, then — although the handler documents itself as an
update — it calls `PedidoVenda.cadastrarPedido`, i.e. it INSERTs a fresh
row and answers 201 "Pedido cadastrado com sucesso." on success. -/
def atualizar (idParam : String) (body : PedidoVendaDTO) (db : DB) : DB × Resp :=
  match parseIntJS idParam with
  | none => (db, Resp.msg 400 "ID incorreto")
  | some idPedido =>
    if idPedido ≤ 0 then (db, Resp.msg 400 "ID incorreto")
    else
      let v := validarPedido { body with idPedido := some idPedido }
      if !v.1.isEmpty then (db, respCampos v.1)
      else
        let r := PedidoVenda.cadastrarPedido db false v.2
        if r.2 then (r.1, Resp.msg 201 "Pedido cadastrado com sucesso.")
        else (r.1, Resp.msg 400 "Erro ao cadastrar pedido.")

end PedidoVendaController

/-! ## Concrete fixtures used by witnesses and failing-input evaluations -/

/-- A database with two clients and two cars and no orders (the seed data
shape of the SQL setup script, truncated). -/
def dbBase : DB :=
  { carros := [{ id_carro := 1, marca := "TOYOTA", modelo := "COROLLA",
                 ano := 2020, cor := "PRETO" },
               { id_carro := 2, marca := "HONDA", modelo := "CIVIC",
                 ano := 2019, cor := "BRANCO" }]
    clientes := [{ id_cliente := 1, nome := "ANA", cpf := "11122233344",
                   telefone := "11999999999", situacao := true },
                 { id_cliente := 2, nome := "BOB", cpf := "22233344455",
                   telefone := "11888888888", situacao := true }]
    pedidos := []
    nextCarro := 3, nextCliente := 3, nextPedido := 1 }

/-- The same database with one active order (client 1 bought car 2). -/
def dbComPedido : DB :=
  { dbBase with
      pedidos := [{ id_pedido := 1, id_cliente := 1, id_carro := 2,
                    data_pedido := 20230910, valor_pedido := 75000,
                    situacao := true }]
      nextPedido := 2 }

/-- A fully valid order payload: client 1, car 2, date 2023-09-10,
value 75000. -/
def pedidoBody : PedidoVendaDTO :=
  { idCliente := JSVal.num (JSNum.fin 1)
    idCarro := JSVal.num (JSNum.fin 2)
    dataPedido := JSVal.str "2023-09-10"
    valorPedido := JSVal.num (JSNum.fin 75000) }

/-- An order payload with a non-parseable date and a non-positive value. -/
def pedidoBodyRuim : PedidoVendaDTO :=
  { idCliente := JSVal.num (JSNum.fin 1)
    idCarro := JSVal.num (JSNum.fin 2)
    dataPedido := JSVal.str "not-a-date"
    valorPedido := JSVal.num (JSNum.fin (-5)) }

/-- A client update payload aimed at a non-existent id. -/
def clienteBody : ClienteDTO :=
  { nome := "ana", cpf := "33344455566", telefone := "11777777777" }

/-- A car payload (used where a handler needs a body). -/
def carroBody : CarroDTO :=
  { marca := "fiat", modelo := "uno", ano := "1999", cor := "verde" }

/-! ## Shared helper lemmas -/

/-- The `forEach`-with-accumulator pattern keeps the value built from the
last row (or the initial accumulator when there is no row). -/
theorem foldl_last_acc {α β : Type} (g : α → β) (l : List α) (acc : Option β) :
    l.foldl (fun _ r => some (g r)) acc
      = match l.getLast? with
        | none => acc
        | some r => some (g r) := by
  induction l using List.reverseRecOn with
  | nil => rfl
  | append_singleton t a _ih => simp [List.foldl_append, List.getLast?_concat]

/-- `lastRowAcc` is "build from the last row". -/
theorem lastRowAcc_eq {α β : Type} (g : α → β) (l : List α) :
    lastRowAcc g l = l.getLast?.map g := by
  rw [lastRowAcc, foldl_last_acc g l none]
  cases l.getLast? <;> rfl

/-- Updating rows by predicate leaves a list untouched when nothing
matches. -/
theorem map_update_no_match {α : Type} (p : α → Bool) (f : α → α)
    (l : List α) (h : ∀ a ∈ l, p a = false) :
    l.map (fun a => if p a then f a else a) = l := by
  induction l with
  | nil => rfl
  | cons a t ih =>
    simp [h a (List.mem_cons_self a t),
      ih (fun b hb => h b (List.mem_cons_of_mem a hb))]

/-! ## Claim theorems -/

/-- C4: the order-value normalizer uses a numeric input as-is; a string
input gets only its first comma replaced by a dot (witnessed on
`"2,5,5"`) and is then converted with `Number(...)`; the result is
accepted exactly when it is a finite value strictly greater than zero
(NaN and the infinities are refused); and the string `"1500,50"`
normalizes to the number 1500.50. -/
theorem c4_valor_normalizacao :
    (∀ n : JSNum, normalizeValor (JSVal.num n) = n)
    ∧ (∀ s : String, normalizeValor (JSVal.str s) = jsNumber (replaceComma s))
    ∧ (∀ v : JSNum, valorAceito v = true ↔ ∃ q : ℚ, v = JSNum.fin q ∧ 0 < q)
    ∧ replaceComma "2,5,5" = "2.5,5"
    ∧ normalizeValor (JSVal.str "1500,50") = JSNum.fin (3001 / 2) := by
  refine ⟨fun n => rfl, fun s => rfl, fun v => ?_, by decide, ?_⟩
  · cases v with
    | nan => simp [valorAceito]
    | inf neg => simp [valorAceito]
    | fin q => simp [valorAceito]
  · have h : replaceComma "1500,50" = "1500.50" := by decide
    rw [show normalizeValor (JSVal.str "1500,50")
          = jsNumber (replaceComma "1500,50") from rfl, h]
    rw [show jsNumber "1500.50"
          = JSNum.fin ((digitsVal ['1', '5', '0', '0'] : ℚ)
              + (digitsVal ['5', '0'] : ℚ) / (10 : ℚ) ^ 2) from by rfl]
    have h1 : ('1'.toNat - 48) = 1 := by decide
    have h5 : ('5'.toNat - 48) = 5 := by decide
    have h0 : ('0'.toNat - 48) = 0 := by decide
    norm_num [digitsVal, h1, h5, h0]

/-- C6: with the database driver raising (`err = true`), every model
operation of every resource returns its sentinel — `none` for the queries,
`(db, false)` with the state untouched for the mutations; the methods are
total functions, so no exception reaches the caller. -/
theorem c6_erros_bd_engolidos :
    ∀ (db : DB) (i : Int) (cdto : CarroDTO) (cl : ClienteDTO)
      (p : PedidoVendaDTO),
      Carro.listarCarros db true = none
      ∧ Carro.listarCarro db true i = none
      ∧ Carro.cadastrarCarro db true cdto = (db, false)
      ∧ Cliente.listarClientes db true = none
      ∧ Cliente.listarCliente db true i = none
      ∧ Cliente.cadastrarCliente db true cl = (db, false)
      ∧ Cliente.atualizarCliente db true cl = (db, false)
      ∧ Cliente.removerCliente db true i = (db, false)
      ∧ PedidoVenda.listarPedidosVenda db true = none
      ∧ PedidoVenda.listarPedidoVenda db true i = none
      ∧ PedidoVenda.cadastrarPedido db true p = (db, false)
      ∧ PedidoVenda.atualizarPedido db true p = (db, false)
      ∧ PedidoVenda.removerPedido db true i = (db, false) := by
  intro db i cdto cl p
  exact ⟨rfl, rfl, rfl, rfl, rfl, rfl, rfl, rfl, rfl, rfl, rfl, rfl, rfl⟩

/-- C8: every get-by-id operation returns `none` on an empty result set and
otherwise the entity built from the last row of the result set — stated
both for the row-processing loop on an arbitrary result set (`lastRowAcc`)
and for the three model methods composed with their SELECTs. -/
theorem c8_ultima_linha :
    (∀ rows : List CarroRow,
      lastRowAcc carroEntOfRow rows = rows.getLast?.map carroEntOfRow)
    ∧ (∀ rows : List ClienteRow,
      lastRowAcc clienteEntOfRow rows = rows.getLast?.map clienteEntOfRow)
    ∧ (∀ rows : List PedidoOut, lastRowAcc id rows = rows.getLast?)
    ∧ (∀ (db : DB) (i : Int),
      Carro.listarCarro db false i
        = (sqlSelectCarro db i).getLast?.map carroEntOfRow)
    ∧ (∀ (db : DB) (i : Int),
      Cliente.listarCliente db false i
        = (sqlSelectCliente db i).getLast?.map clienteEntOfRow)
    ∧ (∀ (db : DB) (i : Int),
      PedidoVenda.listarPedidoVenda db false i = (sqlSelectPedido db i).getLast?) := by
  refine ⟨fun rows => lastRowAcc_eq _ _, fun rows => lastRowAcc_eq _ _,
    fun rows => ?_, fun db i => ?_, fun db i => ?_, fun db i => ?_⟩
  · rw [lastRowAcc_eq]
    simp
  · rw [Carro.listarCarro, if_neg (by simp), lastRowAcc_eq]
  · rw [Cliente.listarCliente, if_neg (by simp), lastRowAcc_eq]
  · rw [PedidoVenda.listarPedidoVenda, if_neg (by simp), lastRowAcc_eq]
    simp

/-- C5: the GET-car-by-id handler has exactly three outcomes — 400 with
"ID incorreto" when `parseInt` gives NaN or a non-positive id, 200 with an
informational message (not 404) when the id is valid but the model finds
no row, and 200 with the car record when it does. -/
theorem c5_carro_por_id_tres_saidas :
    ∀ (s : String) (db : DB),
      ((parseIntJS s = none ∨ ∃ i, parseIntJS s = some i ∧ i ≤ 0)
        ∧ CarroController.carro s db = Resp.msg 400 "ID incorreto")
      ∨ (∃ i, parseIntJS s = some i ∧ 0 < i
          ∧ Carro.listarCarro db false i = none
          ∧ CarroController.carro s db
              = Resp.msg 200 "Nenhum carro encontrado com o ID fornecido")
      ∨ (∃ i c, parseIntJS s = some i ∧ 0 < i
          ∧ Carro.listarCarro db false i = some c
          ∧ CarroController.carro s db = Resp.carroJson 200 c) := by
  intro s db
  unfold CarroController.carro
  cases hp : parseIntJS s with
  | none => exact Or.inl ⟨Or.inl rfl, rfl⟩
  | some i =>
    by_cases hi : i ≤ 0
    · exact Or.inl ⟨Or.inr ⟨i, rfl, hi⟩, by simp [hi]⟩
    · cases hc : Carro.listarCarro db false i with
      | none =>
        refine Or.inr (Or.inl ⟨i, rfl, lt_of_not_le hi, hc, ?_⟩)
        simp [hi, hc]
      | some c =>
        refine Or.inr (Or.inr ⟨i, c, rfl, lt_of_not_le hi, hc, ?_⟩)
        simp [hi, hc]

/-- C9: for every route parameter that parses to a valid positive id, the
car update and car remove handlers answer HTTP 500 (the model methods
`Carro.atualizarCarro` and `Carro.removerCarro` they invoke do not exist,
so the call throws and the catch branch runs); they never answer 200. -/
theorem c9_carro_atualizar_remover_500 :
    ∀ (s : String) (body : CarroDTO) (db : DB) (i : Int),
      parseIntJS s = some i → 0 < i →
      CarroController.atualizar s body db
          = (db, Resp.msg 500 "Não foi possível atualizar o carro.")
      ∧ CarroController.remover s db
          = (db, Resp.msg 500 "Não foi possível remover o carro.") := by
  intro s body db i hp hi
  constructor
  · unfold CarroController.atualizar
    rw [hp]
    simp only [if_neg (not_le.mpr hi)]
  · unfold CarroController.remover
    rw [hp]
    simp only [if_neg (not_le.mpr hi)]

/-- Witness for C9 at the concrete route parameter "3". -/
theorem c9_testemunha :
    parseIntJS "3" = some 3 ∧ (0 : Int) < 3
    ∧ CarroController.atualizar "3" carroBody dbBase
        = (dbBase, Resp.msg 500 "Não foi possível atualizar o carro.")
    ∧ CarroController.remover "3" dbBase
        = (dbBase, Resp.msg 500 "Não foi possível remover o carro.") := by
  have h := c9_carro_atualizar_remover_500 "3" carroBody dbBase 3 (by decide)
    (by decide)
  exact ⟨by decide, by decide, h.1, h.2⟩

/-- C1 (failing-input evaluation): creating an order with payload
client-id 1 and car-id 2 on a database containing clients 1, 2 and cars
1, 2 succeeds, but the stored row has `id_cliente = 2` and `id_carro = 1`
— the INSERT of `cadastrarPedido` binds the payload's `idCarro` to the
`id_cliente` column and vice versa — and the follow-up get-by-id on the
generated id 1 returns the swapped ids (with the name of client 2, not of
client 1). -/
theorem c1_pedido_ids_trocados :
    dbBase.pedidos = []
    ∧ (PedidoVenda.cadastrarPedido dbBase false pedidoBody).2 = true
    ∧ ((PedidoVenda.cadastrarPedido dbBase false pedidoBody).1.pedidos.map
        (fun p => (p.id_cliente, p.id_carro))) = [(2, 1)]
    ∧ ((PedidoVenda.listarPedidoVenda
          (PedidoVenda.cadastrarPedido dbBase false pedidoBody).1 false 1).map
        (fun d => (d.idPedido, d.idCliente, d.idCarro, d.nomeCliente)))
        = some (1, 2, 1, "BOB") := by
  exact ⟨rfl, by decide, by decide, by decide⟩

/-- C2: the model-level update operations do report failure without
creating rows — `atualizarPedido` always returns `(db, false)` because its
UPDATE statement is a SQL syntax error, and `atualizarCliente` on an id
matching no row returns `(db, false)` with the table untouched — but the
sales-order PUT handler calls `cadastrarPedido` instead of
`atualizarPedido`: a PUT to the non-existent order id 999999 with a valid
body INSERTs a fresh order row (id 1) and answers 201, not failure. -/
theorem c2_atualizacao_inexistente :
    (∀ (db : DB) (e : Bool) (p : PedidoVendaDTO),
      PedidoVenda.atualizarPedido db e p = (db, false))
    ∧ (∀ (db : DB) (cl : ClienteDTO),
      (∀ r ∈ db.clientes, (r.id_cliente == cl.idCliente) = false) →
      Cliente.atualizarCliente db false cl = (db, false))
    ∧ dbBase.pedidos = []
    ∧ (PedidoVendaController.atualizar "999999" pedidoBody dbBase).2
        = Resp.msg 201 "Pedido cadastrado com sucesso."
    ∧ ((PedidoVendaController.atualizar "999999" pedidoBody dbBase).1.pedidos.map
        (fun p => p.id_pedido)) = [1] := by
  refine ⟨fun db e p => rfl, fun db cl h => ?_, rfl, by decide, by decide⟩
  unfold Cliente.atualizarCliente
  rw [if_neg (by simp)]
  have hz : db.clientes.countP (fun r => r.id_cliente == cl.idCliente) = 0 := by
    rw [List.countP_eq_zero]
    intro r hr
    simp [h r hr]
  rw [map_update_no_match _ _ _ h, hz]
  rfl

/-- Witness for C2 at the concrete non-existent client id 99. -/
theorem c2_testemunha :
    (∀ r ∈ dbBase.clientes, (r.id_cliente == (99 : Int)) = false)
    ∧ Cliente.atualizarCliente dbBase false { clienteBody with idCliente := 99 }
        = (dbBase, false) := by
  refine ⟨by decide, ?_⟩
  exact c2_atualizacao_inexistente.2.1 dbBase { clienteBody with idCliente := 99 }
    (by decide)

/-- Membership after a conditional push. -/
theorem mem_pushUnlessMem (l : List Campo) (c a : Campo) :
    a ∈ pushUnlessMem l c ↔ a ∈ l ∨ a = c := by
  unfold pushUnlessMem
  by_cases h : c ∈ l
  · rw [if_pos h]
    constructor
    · exact Or.inl
    · rintro (ha | rfl)
      · exact ha
      · exact h
  · rw [if_neg h]
    simp

/-- A conditional push preserves freedom from duplicates. -/
theorem nodup_pushUnlessMem (l : List Campo) (c : Campo) (h : l.Nodup) :
    (pushUnlessMem l c).Nodup := by
  unfold pushUnlessMem
  by_cases hc : c ∈ l
  · rwa [if_pos hc]
  · rw [if_neg hc]
    simp [List.nodup_append, h, hc]

/-- The `camposInvalidos` list computed by the validation block has no
duplicate and contains exactly the offending fields. -/
theorem validarPedido_campos (dto : PedidoVendaDTO) :
    (validarPedido dto).1.Nodup
    ∧ ∀ c, c ∈ (validarPedido dto).1 ↔ campoInvalido dto c = true := by
  unfold validarPedido
  dsimp only
  have hnod0 : (camposObrigatorios.filter
      (fun c => isBlankVal (campoDe dto c))).Nodup :=
    List.Nodup.filter _ (by decide)
  have hmem0 : ∀ c, c ∈ camposObrigatorios.filter
      (fun c => isBlankVal (campoDe dto c)) ↔ isBlankVal (campoDe dto c) = true := by
    intro c
    rw [List.mem_filter]
    simp [show c ∈ camposObrigatorios from by cases c <;> decide]
  by_cases h3 : isBlankVal dto.dataPedido = true
  · rw [if_pos h3]
    by_cases h4 : isBlankVal dto.valorPedido = true
    · rw [if_pos h4]
      refine ⟨hnod0, fun c => ?_⟩
      rw [hmem0]
      cases c <;> simp [campoInvalido, campoDe, h3, h4]
    · rw [if_neg h4]
      by_cases hv : valorAceito (normalizeValor dto.valorPedido) = true
      · rw [if_pos hv]
        refine ⟨hnod0, fun c => ?_⟩
        rw [hmem0]
        cases c <;> simp [campoInvalido, campoDe, h3, h4, hv]
      · rw [if_neg hv]
        refine ⟨nodup_pushUnlessMem _ _ hnod0, fun c => ?_⟩
        rw [mem_pushUnlessMem, hmem0]
        cases c <;>
          simp [campoInvalido, campoDe, h3, h4, Bool.eq_false_iff.mpr hv]
  · rw [if_neg h3]
    cases hd : jsNewDate dto.dataPedido with
    | none =>
      by_cases h4 : isBlankVal dto.valorPedido = true
      · rw [if_pos h4]
        refine ⟨nodup_pushUnlessMem _ _ hnod0, fun c => ?_⟩
        rw [mem_pushUnlessMem, hmem0]
        cases c <;> simp [campoInvalido, campoDe, h3, h4, hd]
      · rw [if_neg h4]
        by_cases hv : valorAceito (normalizeValor dto.valorPedido) = true
        · rw [if_pos hv]
          refine ⟨nodup_pushUnlessMem _ _ hnod0, fun c => ?_⟩
          rw [mem_pushUnlessMem, hmem0]
          cases c <;> simp [campoInvalido, campoDe, h3, h4, hd, hv]
        · rw [if_neg hv]
          refine ⟨nodup_pushUnlessMem _ _ (nodup_pushUnlessMem _ _ hnod0),
            fun c => ?_⟩
          rw [mem_pushUnlessMem, mem_pushUnlessMem, hmem0]
          cases c <;>
            simp [campoInvalido, campoDe, h3, h4, hd, Bool.eq_false_iff.mpr hv]
    | some d =>
      by_cases h4 : isBlankVal dto.valorPedido = true
      · rw [if_pos h4]
        refine ⟨hnod0, fun c => ?_⟩
        rw [hmem0]
        cases c <;> simp [campoInvalido, campoDe, h3, h4, hd]
      · rw [if_neg h4]
        by_cases hv : valorAceito (normalizeValor dto.valorPedido) = true
        · rw [if_pos hv]
          refine ⟨hnod0, fun c => ?_⟩
          rw [hmem0]
          cases c <;> simp [campoInvalido, campoDe, h3, h4, hd, hv]
        · rw [if_neg hv]
          refine ⟨nodup_pushUnlessMem _ _ hnod0, fun c => ?_⟩
          rw [mem_pushUnlessMem, hmem0]
          cases c <;>
            simp [campoInvalido, campoDe, h3, h4, hd, Bool.eq_false_iff.mpr hv]

/-- The validity of the four payload fields does not depend on the
`idPedido` the update handler writes into the DTO. -/
theorem campoInvalido_idPedido (dto : PedidoVendaDTO) (x : Option Int)
    (c : Campo) :
    campoInvalido { dto with idPedido := x } c = campoInvalido dto c := by
  cases c <;> rfl

/-- C3: whenever at least one order field is offending (missing, blank,
non-parseable date, or non-accepted value), both the create handler and
the update handler (under a valid route id) answer 400 with the
`camposInvalidos` list and leave the database untouched — no model call is
made — and that list contains each offending field exactly once and no
non-offending field; `PedidoVendaController.respCampos` always carries status 400. -/
theorem c3_validacao_rejeita_antes_do_bd :
    ∀ (body : PedidoVendaDTO) (db : DB) (s : String) (i : Int),
      (∃ c, campoInvalido body c = true) →
      parseIntJS s = some i → 0 < i →
      ((PedidoVendaController.novo body db).1 = db
        ∧ (PedidoVendaController.novo body db).2
            = PedidoVendaController.respCampos (validarPedido body).1
        ∧ (validarPedido body).1.Nodup
        ∧ (∀ c, c ∈ (validarPedido body).1 ↔ campoInvalido body c = true))
      ∧ ((PedidoVendaController.atualizar s body db).1 = db
        ∧ (PedidoVendaController.atualizar s body db).2
            = PedidoVendaController.respCampos (validarPedido { body with idPedido := some i }).1
        ∧ (validarPedido { body with idPedido := some i }).1.Nodup
        ∧ (∀ c, c ∈ (validarPedido { body with idPedido := some i }).1
              ↔ campoInvalido body c = true))
      ∧ (∀ cs, (PedidoVendaController.respCampos cs).status = 400) := by
  intro body db s i hex hp hi
  obtain ⟨c0, hc0⟩ := hex
  have hmem := (validarPedido_campos body).2
  have hmem2 := (validarPedido_campos { body with idPedido := some i }).2
  have hmem2b : ∀ c, c ∈ (validarPedido { body with idPedido := some i }).1
      ↔ campoInvalido body c = true := by
    intro c
    rw [hmem2 c, campoInvalido_idPedido]
  have hne : (validarPedido body).1 ≠ [] :=
    List.ne_nil_of_mem ((hmem c0).mpr hc0)
  have hne2 : (validarPedido { body with idPedido := some i }).1 ≠ [] :=
    List.ne_nil_of_mem ((hmem2b c0).mpr hc0)
  have hE : ((validarPedido body).1.isEmpty = false) := by
    cases hval : (validarPedido body).1 with
    | nil => exact absurd hval hne
    | cons a t => rfl
  have hE2 : ((validarPedido { body with idPedido := some i }).1.isEmpty
      = false) := by
    cases hval : (validarPedido { body with idPedido := some i }).1 with
    | nil => exact absurd hval hne2
    | cons a t => rfl
  refine ⟨⟨?_, ?_, (validarPedido_campos body).1, hmem⟩,
    ⟨?_, ?_, (validarPedido_campos _).1, hmem2b⟩, fun cs => rfl⟩
  · unfold PedidoVendaController.novo
    simp [hE]
  · unfold PedidoVendaController.novo
    simp [hE]
  · unfold PedidoVendaController.atualizar
    rw [hp]
    simp [if_neg (not_le.mpr hi), hE2]
  · unfold PedidoVendaController.atualizar
    rw [hp]
    simp [if_neg (not_le.mpr hi), hE2]

/-- Witness for C3 at the payload with a non-parseable date and a
negative value, through the create handler and the update handler with
route id "7". -/
theorem c3_testemunha :
    campoInvalido pedidoBodyRuim Campo.dataPedido = true
    ∧ parseIntJS "7" = some 7 ∧ (0 : Int) < 7
    ∧ (PedidoVendaController.novo pedidoBodyRuim dbBase).1 = dbBase
    ∧ (PedidoVendaController.novo pedidoBodyRuim dbBase).2
        = PedidoVendaController.respCampos (validarPedido pedidoBodyRuim).1
    ∧ (PedidoVendaController.atualizar "7" pedidoBodyRuim dbBase).1 = dbBase
    ∧ (Campo.dataPedido ∈ (validarPedido pedidoBodyRuim).1
        ↔ campoInvalido pedidoBodyRuim Campo.dataPedido = true) := by
  have h := c3_validacao_rejeita_antes_do_bd pedidoBodyRuim dbBase "7" 7
    ⟨Campo.dataPedido, by decide⟩ (by decide) (by decide)
  exact ⟨by decide, by decide, by decide, h.1.1, h.1.2.1, h.2.1.1,
    h.1.2.2.2 Campo.dataPedido⟩

/-- A nonempty list has a last element, and it is a member. -/
theorem getLast?_some_mem {α : Type} (l : List α) (h : l ≠ []) :
    ∃ a, l.getLast? = some a ∧ a ∈ l :=
  ⟨l.getLast h, List.getLast?_eq_getLast l h, List.getLast_mem h⟩

/-- A join partner pair yields a row of `joinPedido`. -/
theorem joinPedido_mem (db : DB) (p : PedidoRow) (c : ClienteRow) (a : CarroRow)
    (hc : c ∈ db.clientes) (hcid : c.id_cliente = p.id_cliente)
    (ha : a ∈ db.carros) (haid : a.id_carro = p.id_carro) :
    ({ idPedido := p.id_pedido, idCliente := p.id_cliente, nomeCliente := c.nome,
       idCarro := p.id_carro, marcaCarro := a.marca, modeloCarro := a.modelo,
       dataPedido := p.data_pedido, valorPedido := p.valor_pedido,
       situacao := p.situacao } : PedidoOut) ∈ joinPedido db p := by
  rw [joinPedido]
  apply List.mem_flatMap.mpr
  refine ⟨c, List.mem_filter.mpr ⟨hc, by simp [hcid]⟩, ?_⟩
  exact List.mem_map_of_mem _ (List.mem_filter.mpr ⟨ha, by simp [haid]⟩)

/-- C7: after a successful soft-delete of an existing client (resp. order)
row, list-all no longer lists any record with that id — the list queries
filter on the active flag — while get-by-id with the same id still returns
a record with that id (its SELECT has no active-flag filter).  For orders,
the rows referenced by the deleted order's foreign keys are assumed to
exist, as the database enforces. -/
theorem c7_remocao_logica :
    ∀ (db : DB) (idc idp : Int),
      ((∃ r ∈ db.clientes, r.id_cliente = idc) →
        (Cliente.removerCliente db false idc).2 = true
        ∧ (∃ l, Cliente.listarClientes (Cliente.removerCliente db false idc).1 false
              = some l ∧ ∀ e ∈ l, e.idCliente ≠ idc)
        ∧ (∃ e, Cliente.listarCliente (Cliente.removerCliente db false idc).1 false idc
              = some e ∧ e.idCliente = idc))
      ∧ ((∃ p ∈ db.pedidos, p.id_pedido = idp) →
        (∀ p ∈ db.pedidos, p.id_pedido = idp →
          (∃ c ∈ db.clientes, c.id_cliente = p.id_cliente)
          ∧ (∃ a ∈ db.carros, a.id_carro = p.id_carro)) →
        (PedidoVenda.removerPedido db false idp).2 = true
        ∧ (∃ l, PedidoVenda.listarPedidosVenda
              (PedidoVenda.removerPedido db false idp).1 false
              = some l ∧ ∀ d ∈ l, d.idPedido ≠ idp)
        ∧ (∃ d, PedidoVenda.listarPedidoVenda
              (PedidoVenda.removerPedido db false idp).1 false idp
              = some d ∧ d.idPedido = idp)) := by
  intro db idc idp
  constructor
  · rintro ⟨r0, hr0, hid0⟩
    have hfst : (Cliente.removerCliente db false idc).1
        = { db with clientes := db.clientes.map (fun r =>
            if r.id_cliente == idc then { r with situacao := false } else r) } :=
      rfl
    have hsnd : (Cliente.removerCliente db false idc).2
        = (db.clientes.countP (fun r => r.id_cliente == idc) != 0) := rfl
    have hlist : Cliente.listarClientes (Cliente.removerCliente db false idc).1 false
        = some (((db.clientes.map (fun r =>
            if r.id_cliente == idc then { r with situacao := false } else r)).filter
            (fun r => r.situacao)).map clienteEntOfRow) := rfl
    have hget : Cliente.listarCliente (Cliente.removerCliente db false idc).1 false idc
        = lastRowAcc clienteEntOfRow ((db.clientes.map (fun r =>
            if r.id_cliente == idc then { r with situacao := false } else r)).filter
            (fun r => r.id_cliente == idc)) := rfl
    refine ⟨?_, ⟨_, hlist, ?_⟩, ?_⟩
    · rw [hsnd]
      exact bne_iff_ne.mpr (Nat.pos_iff_ne_zero.mp
        (List.countP_pos_iff.mpr ⟨r0, hr0, by simp [hid0]⟩))
    · intro e he
      rw [List.mem_map] at he
      obtain ⟨row, hrowf, rfl⟩ := he
      rw [List.mem_filter] at hrowf
      obtain ⟨hrowm, hsit⟩ := hrowf
      rw [List.mem_map] at hrowm
      obtain ⟨r1, _, hupdeq⟩ := hrowm
      by_cases hc : (r1.id_cliente == idc) = true
      · rw [if_pos hc] at hupdeq
        rw [← hupdeq] at hsit
        exact absurd hsit (by simp)
      · rw [if_neg hc] at hupdeq
        rw [← hupdeq]
        exact beq_eq_false_iff_ne.mp (Bool.eq_false_iff.mpr hc)
    · have hmemf : (if r0.id_cliente == idc then { r0 with situacao := false }
          else r0) ∈ ((db.clientes.map (fun r =>
            if r.id_cliente == idc then { r with situacao := false } else r)).filter
            (fun r => r.id_cliente == idc)) := by
        rw [List.mem_filter]
        refine ⟨List.mem_map_of_mem _ hr0, ?_⟩
        rw [if_pos (by simp [hid0])]
        simp [hid0]
      obtain ⟨a, ha, hamem⟩ := getLast?_some_mem _ (List.ne_nil_of_mem hmemf)
      refine ⟨clienteEntOfRow a, ?_, ?_⟩
      · rw [hget, lastRowAcc_eq, ha]
        rfl
      · rw [List.mem_filter] at hamem
        exact beq_iff_eq.mp hamem.2
  · rintro ⟨p0, hp0, hidp0⟩ hfk
    have hsnd : (PedidoVenda.removerPedido db false idp).2
        = (db.pedidos.countP (fun p => p.id_pedido == idp) != 0) := rfl
    have hdb2 : (PedidoVenda.removerPedido db false idp).1
        = { db with pedidos := db.pedidos.map (fun p =>
            if p.id_pedido == idp then { p with situacao := false } else p) } :=
      rfl
    have hclientes : (PedidoVenda.removerPedido db false idp).1.clientes
        = db.clientes := rfl
    have hcarros : (PedidoVenda.removerPedido db false idp).1.carros
        = db.carros := rfl
    have hpedidos : (PedidoVenda.removerPedido db false idp).1.pedidos
        = db.pedidos.map (fun p =>
            if p.id_pedido == idp then { p with situacao := false } else p) := rfl
    have hlist : PedidoVenda.listarPedidosVenda
        (PedidoVenda.removerPedido db false idp).1 false
        = some (sqlSelectPedidos (PedidoVenda.removerPedido db false idp).1) := rfl
    have hget : PedidoVenda.listarPedidoVenda
        (PedidoVenda.removerPedido db false idp).1 false idp
        = lastRowAcc id (sqlSelectPedido (PedidoVenda.removerPedido db false idp).1 idp) :=
      rfl
    refine ⟨?_, ⟨_, hlist, ?_⟩, ?_⟩
    · rw [hsnd]
      exact bne_iff_ne.mpr (Nat.pos_iff_ne_zero.mp
        (List.countP_pos_iff.mpr ⟨p0, hp0, by simp [hidp0]⟩))
    · intro d hd
      rw [sqlSelectPedidos, List.mem_flatMap] at hd
      obtain ⟨p, hpf, hdj⟩ := hd
      rw [hpedidos, List.mem_filter] at hpf
      obtain ⟨hpm, hsit⟩ := hpf
      rw [List.mem_map] at hpm
      obtain ⟨p1, _, hupdeq⟩ := hpm
      have hdid : d.idPedido = p.id_pedido := by
        rw [joinPedido, List.mem_flatMap] at hdj
        obtain ⟨c, _, hdm⟩ := hdj
        rw [List.mem_map] at hdm
        obtain ⟨a, _, rfl⟩ := hdm
        rfl
      rw [hdid]
      by_cases hc : (p1.id_pedido == idp) = true
      · rw [if_pos hc] at hupdeq
        rw [← hupdeq] at hsit
        exact absurd hsit (by simp)
      · rw [if_neg hc] at hupdeq
        rw [← hupdeq]
        exact beq_eq_false_iff_ne.mp (Bool.eq_false_iff.mpr hc)
    · obtain ⟨⟨c0, hc0m, hc0id⟩, ⟨a0, ha0m, ha0id⟩⟩ := hfk p0 hp0 hidp0
      have hup : (if p0.id_pedido == idp then { p0 with situacao := false }
          else p0) = { p0 with situacao := false } := if_pos (by simp [hidp0])
      have hj := joinPedido_mem (PedidoVenda.removerPedido db false idp).1
        { p0 with situacao := false } c0 a0
        (by rw [hclientes]; exact hc0m) hc0id
        (by rw [hcarros]; exact ha0m) ha0id
      have hmemf : ({ p0 with situacao := false } : PedidoRow)
          ∈ ((PedidoVenda.removerPedido db false idp).1.pedidos.filter
            (fun p => p.id_pedido == idp)) := by
        rw [hpedidos, List.mem_filter]
        constructor
        · have hm := List.mem_map_of_mem (fun p : PedidoRow =>
            if p.id_pedido == idp then { p with situacao := false } else p) hp0
          have hm2 : (if p0.id_pedido == idp
              then ({ p0 with situacao := false } : PedidoRow) else p0)
              ∈ db.pedidos.map (fun p : PedidoRow =>
                if p.id_pedido == idp then { p with situacao := false } else p) :=
            hm
          rwa [hup] at hm2
        · simp [hidp0]
      have hne : sqlSelectPedido (PedidoVenda.removerPedido db false idp).1 idp ≠ [] := by
        apply List.ne_nil_of_mem
        rw [sqlSelectPedido, List.mem_flatMap]
        exact ⟨_, hmemf, hj⟩
      obtain ⟨d, hd, hdm⟩ := getLast?_some_mem _ hne
      refine ⟨d, ?_, ?_⟩
      · rw [hget, lastRowAcc_eq, hd]
        rfl
      · rw [sqlSelectPedido, List.mem_flatMap] at hdm
        obtain ⟨p, hpf, hdj⟩ := hdm
        rw [List.mem_filter] at hpf
        have hdid : d.idPedido = p.id_pedido := by
          rw [joinPedido, List.mem_flatMap] at hdj
          obtain ⟨c, _, hdm2⟩ := hdj
          rw [List.mem_map] at hdm2
          obtain ⟨a, _, rfl⟩ := hdm2
          rfl
        rw [hdid]
        exact beq_iff_eq.mp hpf.2

/-- Witness for C7 on the database with client 1 and order 1. -/
theorem c7_testemunha :
    (∃ r ∈ dbComPedido.clientes, r.id_cliente = (1 : Int))
    ∧ (∃ p ∈ dbComPedido.pedidos, p.id_pedido = (1 : Int))
    ∧ ((Cliente.removerCliente dbComPedido false 1).2 = true
      ∧ (∃ l, Cliente.listarClientes
            (Cliente.removerCliente dbComPedido false 1).1 false
            = some l ∧ ∀ e ∈ l, e.idCliente ≠ 1)
      ∧ (∃ e, Cliente.listarCliente
            (Cliente.removerCliente dbComPedido false 1).1 false 1
            = some e ∧ e.idCliente = 1))
    ∧ ((PedidoVenda.removerPedido dbComPedido false 1).2 = true
      ∧ (∃ l, PedidoVenda.listarPedidosVenda
            (PedidoVenda.removerPedido dbComPedido false 1).1 false
            = some l ∧ ∀ d ∈ l, d.idPedido ≠ 1)
      ∧ (∃ d, PedidoVenda.listarPedidoVenda
            (PedidoVenda.removerPedido dbComPedido false 1).1 false 1
            = some d ∧ d.idPedido = 1)) := by
  have h := c7_remocao_logica dbComPedido 1 1
  exact ⟨by decide, by decide, h.1 (by decide), h.2 (by decide) (by decide)⟩

/-- A decimal digit is not one of the whitespace characters. -/
theorem digit_not_white (c : Char) (h : c.isDigit = true) : jsWhite c = false := by
  simp only [jsWhite, Bool.or_eq_false_iff, decide_eq_false_iff_not]
  refine ⟨⟨⟨⟨⟨?_, ?_⟩, ?_⟩, ?_⟩, ?_⟩, ?_⟩ <;> rintro rfl <;> exact absurd h (by decide)

/-- The longest digit prefix of digits followed by a non-digit (or end of
input) is exactly the digits. -/
theorem leadingDigits_append (ds rest : List Char)
    (hd : ∀ c ∈ ds, c.isDigit = true)
    (hr : ∀ c, rest.head? = some c → c.isDigit = false) :
    leadingDigits (ds ++ rest) = ds := by
  induction ds with
  | nil =>
    cases rest with
    | nil => rfl
    | cons r t =>
      rw [List.nil_append, leadingDigits, if_neg]
      simp [hr r rfl]
  | cons d t ih =>
    rw [List.cons_append, leadingDigits,
      if_pos (hd d (List.mem_cons_self d t)),
      ih (fun c hc => hd c (List.mem_cons_of_mem d hc))]

/-- `parseInt` on a string made of one or more digits followed by a
non-digit suffix parses the leading digits — provided the string is not a
`0x`/`0X` hexadecimal prefix (digits `['0']` followed by `x`/`X`), which
no-radix `parseInt` reads as hexadecimal instead. -/
theorem parseIntJS_digits (ds rest : List Char) (hne : ds ≠ [])
    (hd : ∀ c ∈ ds, c.isDigit = true)
    (hr : ∀ c, rest.head? = some c → c.isDigit = false)
    (hx : ∀ c, ds = ['0'] → rest.head? = some c → c ≠ 'x' ∧ c ≠ 'X') :
    parseIntJS (String.mk (ds ++ rest)) = some ((digitsVal ds : Nat) : Int) := by
  obtain ⟨d0, ds', rfl⟩ : ∃ d0 ds', ds = d0 :: ds' := by
    cases ds with
    | nil => exact absurd rfl hne
    | cons a t => exact ⟨a, t, rfl⟩
  have hd0 : d0.isDigit = true := hd d0 (List.mem_cons_self d0 ds')
  have hnotminus : d0 ≠ '-' := fun he => by
    rw [he] at hd0
    exact absurd hd0 (by decide)
  have hnotplus : d0 ≠ '+' := fun he => by
    rw [he] at hd0
    exact absurd hd0 (by decide)
  have hlead : leadingDigits (d0 :: (ds' ++ rest)) = d0 :: ds' := by
    rw [show d0 :: (ds' ++ rest) = (d0 :: ds') ++ rest from rfl]
    exact leadingDigits_append _ _ hd hr
  have hhp : hexStart (d0 :: (ds' ++ rest)) = false := by
    cases ds' with
    | nil =>
      cases rest with
      | nil => rfl
      | cons r t =>
        by_cases h0 : d0 = '0'
        · obtain ⟨hx1, hx2⟩ := hx r (by rw [h0]) rfl
          subst h0
          simp [hexStart, hx1, hx2]
        · simp [hexStart, h0]
    | cons d1 ds2 =>
      have hd1 : d1.isDigit = true := hd d1 (by simp)
      have h1x : d1 ≠ 'x' := fun he => by
        rw [he] at hd1
        exact absurd hd1 (by decide)
      have h1X : d1 ≠ 'X' := fun he => by
        rw [he] at hd1
        exact absurd hd1 (by decide)
      simp [hexStart, h1x, h1X]
  have hbody : parseIntBody (d0 :: (ds' ++ rest)) = some (digitsVal (d0 :: ds')) := by
    simp [parseIntBody, hhp, hlead]
  unfold parseIntJS
  dsimp only
  have hlist : (String.mk ((d0 :: ds') ++ rest)).toList = d0 :: (ds' ++ rest) :=
    rfl
  rw [hlist, List.dropWhile_cons, if_neg (by simp [digit_not_white d0 hd0])]
  dsimp only
  simp [hnotminus, hnotplus, hbody]

/-- C10 (amended): each id-taking handler (get-by-id, update, remove, for
cars and clients) answers 400 "ID incorreto" exactly when `parseInt` on
the route parameter yields NaN or a non-positive value; and a parameter
made of digits followed by non-digits (like "5abc") — except the digits
`['0']` followed by `x`/`X`, which no-radix `parseInt` reads as a
hexadecimal prefix, and provided the leading value stays below `2 ^ 53`,
where `parseInt`'s double result is exact — is parsed by `parseInt` to
the leading integer and the handler proceeds exactly as it would for the
digits alone. -/
theorem c10_parseint_prefixo :
    ∀ (s : String) (db : DB) (cb : CarroDTO) (clb : ClienteDTO),
      (CarroController.carro s db = Resp.msg 400 "ID incorreto"
        ↔ idInvalido s = true)
      ∧ ((CarroController.atualizar s cb db).2 = Resp.msg 400 "ID incorreto"
        ↔ idInvalido s = true)
      ∧ ((CarroController.remover s db).2 = Resp.msg 400 "ID incorreto"
        ↔ idInvalido s = true)
      ∧ (ClienteController.cliente s db = Resp.msg 400 "ID incorreto."
        ↔ idInvalido s = true)
      ∧ ((ClienteController.atualizar s clb db).2 = Resp.msg 400 "ID incorreto."
        ↔ idInvalido s = true)
      ∧ ((ClienteController.remover s db).2 = Resp.msg 400 "ID incorreto."
        ↔ idInvalido s = true)
      ∧ (∀ ds rest : List Char, ds ≠ [] →
          (∀ c ∈ ds, c.isDigit = true) →
          (∀ c, rest.head? = some c → c.isDigit = false) →
          (∀ c, ds = ['0'] → rest.head? = some c → c ≠ 'x' ∧ c ≠ 'X') →
          digitsVal ds < 2 ^ 53 →
          parseIntJS (String.mk (ds ++ rest)) = some (digitsVal ds)
          ∧ CarroController.carro (String.mk (ds ++ rest)) db
              = CarroController.carro (String.mk ds) db
          ∧ ClienteController.cliente (String.mk (ds ++ rest)) db
              = ClienteController.cliente (String.mk ds) db) := by
  intro s db cb clb
  refine ⟨?_, ?_, ?_, ?_, ?_, ?_, ?_⟩
  · unfold CarroController.carro idInvalido
    cases hp : parseIntJS s with
    | none => simp
    | some i =>
      by_cases hi : i ≤ 0
      · simp [hi]
      · cases hc : Carro.listarCarro db false i with
        | none => simp [hi, hc]
        | some c => simp [hi, hc]
  · unfold CarroController.atualizar idInvalido
    cases hp : parseIntJS s with
    | none => simp
    | some i =>
      by_cases hi : i ≤ 0
      · simp [hi]
      · simp [hi]
  · unfold CarroController.remover idInvalido
    cases hp : parseIntJS s with
    | none => simp
    | some i =>
      by_cases hi : i ≤ 0
      · simp [hi]
      · simp [hi]
  · unfold ClienteController.cliente idInvalido
    cases hp : parseIntJS s with
    | none => simp
    | some i =>
      by_cases hi : i ≤ 0
      · simp [hi]
      · cases hc : Cliente.listarCliente db false i with
        | none => simp [hi, hc]
        | some c => simp [hi, hc]
  · unfold ClienteController.atualizar idInvalido
    cases hp : parseIntJS s with
    | none => simp
    | some i =>
      by_cases hi : i ≤ 0
      · simp [hi]
      · cases hr : (Cliente.atualizarCliente db false { clb with idCliente := i }).2 with
        | false => simp [hi, hr]
        | true => simp [hi, hr]
  · unfold ClienteController.remover idInvalido
    cases hp : parseIntJS s with
    | none => simp
    | some i =>
      by_cases hi : i ≤ 0
      · simp [hi]
      · cases hr : (Cliente.removerCliente db false i).2 with
        | false => simp [hi, hr]
        | true => simp [hi, hr]
  · intro ds rest h1 h2 h3 h4 _h5
    have hp1 := parseIntJS_digits ds rest h1 h2 h3 h4
    have hp2 := parseIntJS_digits ds [] h1 h2 (fun c hc => nomatch hc)
      (fun c _ hc => nomatch hc)
    rw [List.append_nil] at hp2
    refine ⟨hp1, ?_, ?_⟩
    · unfold CarroController.carro
      rw [hp1, hp2]
    · unfold ClienteController.cliente
      rw [hp1, hp2]

/-- Witness for C10 at the route parameter "5abc". -/
theorem c10_testemunha :
    (['5'] : List Char) ≠ []
    ∧ (∀ c ∈ (['5'] : List Char), c.isDigit = true)
    ∧ (∀ c, (['a', 'b', 'c'] : List Char).head? = some c → c.isDigit = false)
    ∧ (['5'] : List Char) ≠ ['0']
    ∧ digitsVal ['5'] < 2 ^ 53
    ∧ parseIntJS (String.mk (['5'] ++ ['a', 'b', 'c']))
        = some (digitsVal ['5'])
    ∧ CarroController.carro (String.mk (['5'] ++ ['a', 'b', 'c'])) dbBase
        = CarroController.carro (String.mk ['5']) dbBase
    ∧ (CarroController.carro "5abc" dbBase = Resp.msg 400 "ID incorreto"
        ↔ idInvalido "5abc" = true) := by
  have h := c10_parseint_prefixo "5abc" dbBase carroBody clienteBody
  have hd := h.2.2.2.2.2.2 ['5'] ['a', 'b', 'c'] (by decide) (by decide)
    (by decide) (fun c hds => absurd hds (by decide)) (by decide)
  exact ⟨by decide, by decide, by decide, by decide, by decide, hd.1, hd.2.1,
    h.1⟩

/-- C10 counterexample: "0x10" is in the claim's domain (the digit `'0'`
followed by non-digit characters), yet the no-radix `parseInt` the
handlers call reads it as hexadecimal 16, not as the leading integer 0:
the GET-car handler proceeds with id 16 and answers 200, instead of
answering 400 for the non-positive leading integer 0, and so behaves
differently from the parameter "0". -/
theorem c10_contraexemplo :
    ("0x10").toList = ['0'] ++ ['x', '1', '0']
    ∧ (∀ c ∈ (['0'] : List Char), c.isDigit = true)
    ∧ (∀ c, (['x', '1', '0'] : List Char).head? = some c → c.isDigit = false)
    ∧ parseIntJS "0x10" = some 16
    ∧ parseIntJS "0x10" ≠ some ((digitsVal ['0'] : Nat) : Int)
    ∧ CarroController.carro "0x10" dbBase ≠ CarroController.carro "0" dbBase
    ∧ CarroController.carro "0x10" dbBase
        = Resp.msg 200 "Nenhum carro encontrado com o ID fornecido"
    ∧ CarroController.carro "0" dbBase = Resp.msg 400 "ID incorreto" := by
  exact ⟨by decide, by decide, by decide, by decide, by decide, by decide,
    by decide, by decide⟩
